import Mathlib

/-!
Verification of the eoxs-log service against its specification.

The development shallowly embeds the two components of the repository:

* the Express HTTP wrapper (health, job status and automate endpoints,
  the in-memory job store, and the request-body-to-environment mapping), and
* the Playwright automation class EOXSPlaywrightAutomationWithLog
  (configuration from environment variables, the run orchestration with its
  two modes, the selector fallback loops).

Browser effects are modelled by oracles: a step either succeeds or fails
(the boolean the corresponding method returns, or the exception it throws),
a DOM query either shows a visible element or not, and a page is a function
from query strings to the list of card texts it matches.  Machine-level
details (actual timers, screenshots, console logging) have no effect on any
control flow or result and are not modelled.
-/

/-- A JavaScript value as it can appear in a parsed JSON request body. -/
inductive JsValue where
  | undefined : JsValue
  | null : JsValue
  | bool : Bool → JsValue
  | num : Int → JsValue
  | str : String → JsValue
deriving DecidableEq

/-- JavaScript String(v) conversion for the values above. -/
def jsToString : JsValue → String
  | .undefined => "undefined"
  | .null => "null"
  | .bool true => "true"
  | .bool false => "false"
  | .num n => toString n
  | .str s => s

/-- JavaScript nullish coalescing a ?? b. -/
def nullishCoalesce (a b : JsValue) : JsValue :=
  match a with
  | .undefined => b
  | .null => b
  | _ => a

/-- process.env: a partial map from variable names to string values. -/
abbrev Env := String → Option String

/-- A parsed request body: key/value pairs in insertion order. -/
abbrev Body := List (String × JsValue)

/-- req.body[key]: an absent key reads as undefined. -/
def bodyGet (body : Body) (key : String) : JsValue :=
  match body.lookup key with
  | some v => v
  | none => .undefined

/-- process.env[key] = value. -/
def setEnv (e : Env) (key value : String) : Env :=
  fun k => if k = key then some value else e k

/-- Values skipped by the env-update loop (value !== undefined && value !== null). -/
def isNullish : JsValue → Bool
  | .undefined => true
  | .null => true
  | _ => false

/-- One iteration of the Object.keys(req.body).forEach loop in the automate
handler: non-nullish values are written to the environment as strings. -/
def applyBodyKey (e : Env) (kv : String × JsValue) : Env :=
  if isNullish kv.2 then e else setEnv e kv.1 (jsToString kv.2)

/-- The whole forEach loop: fold the body over the environment. -/
def updateEnvFromBody (e : Env) (body : Body) : Env :=
  body.foldl applyBodyKey e

/-- The production guard that follows the loop:
if (process.env.NODE_ENV === "production") process.env.HEADLESS = "true". -/
def ensureHeadless (e : Env) : Env :=
  if e "NODE_ENV" = some "production" then setEnv e "HEADLESS" "true" else e

theorem setEnv_self (e : Env) (k v : String) : setEnv e k v k = some v := by
  simp [setEnv]

theorem setEnv_other (e : Env) (k v k' : String) (h : k' ≠ k) :
    setEnv e k v k' = e k' := by
  simp [setEnv, h]

theorem updateEnvFromBody_cons (e : Env) (kv : String × JsValue) (body : Body) :
    updateEnvFromBody e (kv :: body) = updateEnvFromBody (applyBodyKey e kv) body := rfl

/-- Keys that do not occur in the body are never written by the loop. -/
theorem updateEnvFromBody_not_key (e : Env) (body : Body) (k : String)
    (h : ∀ p ∈ body, p.1 ≠ k) : updateEnvFromBody e body k = e k := by
  induction body generalizing e with
  | nil => rfl
  | cons kv rest ih =>
    rw [updateEnvFromBody_cons, ih _ (fun p hp => h p (List.mem_cons_of_mem _ hp))]
    unfold applyBodyKey
    split
    · rfl
    · exact setEnv_other _ _ _ _ fun hk => (h kv (List.mem_cons_self _ _)) hk.symm

/-- Claim C1: in the automate handler, every request-body key whose value is
neither undefined nor null is written to process.env as the string form of
its value before the automation is instantiated and run, while body keys
whose value is undefined or null leave the corresponding environment entry
unchanged. -/
theorem automate_env_mapping (env : Env) (body : Body)
    (hnd : (body.map Prod.fst).Nodup) :
    (∀ k v, (k, v) ∈ body → v ≠ JsValue.undefined → v ≠ JsValue.null →
      updateEnvFromBody env body k = some (jsToString v)) ∧
    (∀ k v, (k, v) ∈ body → (v = JsValue.undefined ∨ v = JsValue.null) →
      updateEnvFromBody env body k = env k) := by
  induction body generalizing env with
  | nil => exact ⟨fun k v h => absurd h (List.not_mem_nil _), fun k v h => absurd h (List.not_mem_nil _)⟩
  | cons kv rest ih =>
    rw [List.map_cons, List.nodup_cons] at hnd
    obtain ⟨hhead, htail⟩ := hnd
    have hrestkeys : ∀ p ∈ rest, p.1 ≠ kv.1 := by
      intro p hp hpk
      exact hhead (hpk ▸ List.mem_map_of_mem Prod.fst hp)
    constructor
    · intro k v hmem hnu hnn
      rcases List.mem_cons.mp hmem with heq | hmemr
      · have hk : k = kv.1 := congrArg Prod.fst heq
        have hv : v = kv.2 := congrArg Prod.snd heq
        rw [updateEnvFromBody_cons,
          updateEnvFromBody_not_key _ _ _ (fun p hp => hk ▸ hrestkeys p hp)]
        have hnotnull : isNullish kv.2 = false := by
          cases hkv : kv.2 <;> simp_all [isNullish]
        rw [applyBodyKey, hnotnull]
        simp only [Bool.false_eq_true, if_false]
        rw [hk, hv, setEnv_self]
      · rw [updateEnvFromBody_cons]
        exact (ih _ htail).1 k v hmemr hnu hnn
    · intro k v hmem hnull
      rcases List.mem_cons.mp hmem with heq | hmemr
      · have hk : k = kv.1 := congrArg Prod.fst heq
        have hv : v = kv.2 := congrArg Prod.snd heq
        rw [updateEnvFromBody_cons,
          updateEnvFromBody_not_key _ _ _ (fun p hp => hk ▸ hrestkeys p hp)]
        have hisnull : isNullish kv.2 = true := by
          rcases hnull with h | h <;> rw [← hv, h] <;> rfl
        rw [applyBodyKey, hisnull]
        simp
      · rw [updateEnvFromBody_cons]
        have hres := (ih (applyBodyKey env kv) htail).2 k v hmemr hnull
        rw [hres]
        have hkne : k ≠ kv.1 := by
          intro hk
          exact hrestkeys (k, v) hmemr hk
        unfold applyBodyKey
        split
        · rfl
        · exact setEnv_other _ _ _ _ hkne

def c1Env : Env := fun k => if k = "X" then some "keep" else none

def c1Body : Body := [("EMAIL_SUBJECT", JsValue.str "Hello"), ("X", JsValue.null)]

/-- Witness for claim C1 at a concrete body: a string-valued key is mapped,
a null-valued key leaves the existing entry alone. -/
theorem automate_env_mapping_witness :
    updateEnvFromBody c1Env c1Body "EMAIL_SUBJECT" = some "Hello" ∧
    updateEnvFromBody c1Env c1Body "X" = some "keep" := by
  have h := automate_env_mapping c1Env c1Body (by decide)
  refine ⟨h.1 "EMAIL_SUBJECT" (JsValue.str "Hello") (by decide) (by decide) (by decide), ?_⟩
  have h2 := h.2 "X" JsValue.null (by decide) (Or.inr rfl)
  rw [h2]
  rfl

/-- The object automation.run() resolves with:
{success, ticketId?} on success, {success: false, error} on failure. -/
structure RunResult where
  success : Bool
  ticketId : Option String := none
  error : Option String := none
deriving DecidableEq

/-- An in-memory job record as stored in the jobs map. -/
structure Job where
  id : String
  status : String
  createdAt : Nat
  result : Option RunResult := none
  completedAt : Option Nat := none
deriving DecidableEq

/-- The in-memory job store (const jobs = new Map()).  jobs.set is modelled
by consing; jobs.get takes the most recent binding. -/
abbrev JobStore := List (String × Job)

/-- jobs.get(jobId). -/
def storeGet : JobStore → String → Option Job
  | [], _ => none
  | (k, j) :: rest, key => if key = k then some j else storeGet rest key

/-- The job record created by the background branch of the automate handler.
Timestamps are milliseconds since the epoch (new Date().toISOString() is
injective on those, so the string form is not modelled separately). -/
def newJob (jobId : String) (now : Nat) : Job :=
  { id := jobId, status := "running", createdAt := now }

/-- The background IIFE completing a job: if automation.run() resolved, the
job is marked completed with that result; if it rejected, the job is marked
failed with a synthesized {success: false, error} result. -/
def completeJob (j : Job) (outcome : Except String RunResult) (t : Nat) : Job :=
  match outcome with
  | .ok r => { j with status := "completed", result := some r, completedAt := some t }
  | .error m =>
      { j with status := "failed", result := some { success := false, error := some m },
               completedAt := some t }

/-- The background IIFE mutates the job object held in the map in place. -/
def finishJob (s : JobStore) (key : String) (outcome : Except String RunResult) (t : Nat) :
    JobStore :=
  s.map fun p => if p.1 = key then (p.1, completeJob p.2 outcome t) else p

/-- A JSON response of the HTTP layer.  status is the HTTP status code;
the remaining fields are the body keys any of the handlers may emit (absent
keys are none).  The status key of the /status/:jobId body is jobStatus and
its result key is jobResult, to keep them apart from the HTTP status. -/
structure Response where
  status : Nat := 200
  success : Option Bool := none
  error : Option String := none
  jobId : Option String := none
  statusUrl : Option String := none
  accepted : Option Bool := none
  message : Option String := none
  data : Option RunResult := none
  jobStatus : Option String := none
  jobResult : Option (Option RunResult) := none
  createdAt : Option Nat := none
  completedAt : Option (Option Nat) := none
  duration : Option ℚ := none
  timestamp : Option Nat := none
deriving DecidableEq

/-- GET /status/:jobId.  Durations divide milliseconds by 1000, as rationals
(JavaScript number division). -/
def statusHandler (store : JobStore) (jobId : String) : Response :=
  match storeGet store jobId with
  | none => { status := 404, success := some false, error := some "Job not found",
              jobId := some jobId }
  | some job =>
      { jobId := some jobId, jobStatus := some job.status, jobResult := some job.result,
        createdAt := some job.createdAt, completedAt := some job.completedAt,
        duration :=
          match job.completedAt with
          | some c => some (((c : ℚ) - (job.createdAt : ℚ)) / 1000)
          | none => none }

/-- String(req.body.waitForResponse ?? "true") === "true": the mode switch of
the automate handler. -/
def waitForResponse (body : Body) : Bool :=
  jsToString (nullishCoalesce (bodyGet body "waitForResponse") (JsValue.str "true")) == "true"

/-- Claim C9: POST /automate handles the request in blocking mode if and only
if the waitForResponse body field is absent (reads as undefined), is null, or
has string form exactly "true"; every other value selects background mode. -/
theorem wait_for_response_blocking_iff (body : Body) :
    waitForResponse body = true ↔
      (bodyGet body "waitForResponse" = JsValue.undefined ∨
       bodyGet body "waitForResponse" = JsValue.null ∨
       jsToString (bodyGet body "waitForResponse") = "true") := by
  unfold waitForResponse
  cases h : bodyGet body "waitForResponse" with
  | undefined => simp [nullishCoalesce, jsToString]
  | null => simp [nullishCoalesce, jsToString]
  | bool b => cases b <;> simp [nullishCoalesce, jsToString]
  | num n => simp [nullishCoalesce]
  | str s => simp [nullishCoalesce, jsToString]

/-- Claim C3: GET /status/:jobId answers 404 with success false and the
echoed job id for unknown jobs, and otherwise reports the stored status,
result, createdAt and completedAt, computing a duration only once
completedAt is set. -/
theorem status_endpoint_contract (store : JobStore) (jobId : String) :
    (storeGet store jobId = none →
      statusHandler store jobId =
        { status := 404, success := some false, error := some "Job not found",
          jobId := some jobId }) ∧
    (∀ job, storeGet store jobId = some job →
      (statusHandler store jobId).status = 200 ∧
      (statusHandler store jobId).jobId = some jobId ∧
      (statusHandler store jobId).jobStatus = some job.status ∧
      (statusHandler store jobId).jobResult = some job.result ∧
      (statusHandler store jobId).createdAt = some job.createdAt ∧
      (statusHandler store jobId).completedAt = some job.completedAt ∧
      (job.completedAt = none → (statusHandler store jobId).duration = none) ∧
      (∀ c, job.completedAt = some c →
        (statusHandler store jobId).duration =
          some (((c : ℚ) - (job.createdAt : ℚ)) / 1000))) := by
  constructor
  · intro h
    simp [statusHandler, h]
  · intro job h
    refine ⟨by simp [statusHandler, h], by simp [statusHandler, h], by simp [statusHandler, h],
      by simp [statusHandler, h], by simp [statusHandler, h], by simp [statusHandler, h],
      ?_, ?_⟩
    · intro hc
      simp [statusHandler, h, hc]
    · intro c hc
      simp [statusHandler, h, hc]

def c3Store : JobStore :=
  [("j1", { id := "j1", status := "completed", createdAt := 1000,
            result := some { success := true }, completedAt := some 3500 })]

/-- Witness for claim C3: the 404 branch on the empty store and a concrete
duration for a completed stored job. -/
theorem status_endpoint_contract_witness :
    statusHandler [] "nope" =
      { status := 404, success := some false, error := some "Job not found",
        jobId := some "nope" } ∧
    (statusHandler c3Store "j1").duration = some (((3500 : ℚ) - (1000 : ℚ)) / 1000) := by
  refine ⟨(status_endpoint_contract [] "nope").1 rfl, ?_⟩
  exact (((status_endpoint_contract c3Store "j1").2 _ rfl).2.2.2.2.2.2.2) 3500 rfl

/-- CONFIG.ticketDetails: the mutable configuration bag of the automation. -/
structure TicketDetails where
  title : String
  customer : String
  assignedTo : String
  description : String
  logNote : String
deriving DecidableEq

/-- The static initial value of CONFIG.ticketDetails. -/
def defaultTicketDetails : TicketDetails :=
  { title := "Sample", customer := "Discount Pipe & Steel", assignedTo := "Sahaj Katiyar",
    description := "", logNote := "Email received from customer" }

/-- JavaScript truthiness of an environment value: present and non-empty. -/
def truthy : Option String → Bool
  | none => false
  | some s => !(s == "")

/-- JavaScript a || b on (possibly absent) strings: the first truthy value. -/
def jsOrStr (a b : Option String) : Option String :=
  if truthy a then a else b

/-- JavaScript a && b on (possibly absent) strings. -/
def jsAndStr (a b : Option String) : Option String :=
  if truthy a then b else a

/-- Boolean(process.env.TICKET_TITLE && (process.env.LOG_NOTE || process.env.EMAIL_SUBJECT)):
the switch into log-note-only mode inside run(). -/
def logNoteOnlyMode (env : Env) : Bool :=
  truthy (jsAndStr (env "TICKET_TITLE") (jsOrStr (env "LOG_NOTE") (env "EMAIL_SUBJECT")))

/-- updateTicketDetailsFromEnv(), called by the constructor: overlay the
configuration bag with the environment variables that are set. -/
def updateTicketDetailsFromEnv (env : Env) (td : TicketDetails) : TicketDetails :=
  let td := if truthy (env "EMAIL_SUBJECT") then
      { td with title := (env "EMAIL_SUBJECT").getD "" } else td
  let td := if truthy (env "EMAIL_CUSTOMER") then
      { td with customer := (env "EMAIL_CUSTOMER").getD "" } else td
  let td := if truthy (env "EMAIL_BODY") then
      { td with description := (env "EMAIL_BODY").getD "",
                logNote := (env "EMAIL_BODY").getD "" } else td
  let td := if truthy (env "TICKET_TITLE") then
      { td with title := (env "TICKET_TITLE").getD "" } else td
  if truthy (jsOrStr (env "LOG_NOTE") (env "EMAIL_SUBJECT")) then
    { td with logNote := (jsOrStr (env "LOG_NOTE") (env "EMAIL_SUBJECT")).getD "" }
  else td

/-- The configuration bag as run() leaves it before the UI steps: constructor
overlay, then the description update from EMAIL_SUBJECT, then the log-note-only
overrides (providedTicketTitle and providedLogNote).  Command-line arguments
(--subject=...) do not occur under the HTTP wrapper and are not modelled. -/
def ticketDetailsForRun (env : Env) : TicketDetails :=
  let td0 := updateTicketDetailsFromEnv env defaultTicketDetails
  let td1 := if truthy (env "EMAIL_SUBJECT") then
      { td0 with description := (env "EMAIL_SUBJECT").getD "" } else td0
  if logNoteOnlyMode env then
    { td1 with
      title := (jsOrStr (env "TICKET_TITLE") (some td1.title)).getD "",
      logNote := (jsOrStr (env "LOG_NOTE")
        (jsOrStr (env "EMAIL_SUBJECT") (some td1.logNote))).getD "" }
  else td1

/-- The named UI-interaction steps of run(), in the order the methods are
invoked.  Screenshots and closePopupWithDiscard never influence control flow
or results and are not recorded. -/
inductive Step where
  | login : Step
  | navigateToProjects : Step
  | clickCreate : Step
  | fillTicketForm : Step
  | submitTicket : Step
  | clickOnCreatedTicket : Step
  | editTicketDetails : Step
  | addLogNote : Step
  | openTicketByTitle : Step
deriving DecidableEq

/-- The step order of the default (ticket-creation) flow of run(). -/
def defaultStepOrder : List Step :=
  [Step.login, Step.navigateToProjects, Step.clickCreate, Step.fillTicketForm,
   Step.submitTicket, Step.clickOnCreatedTicket, Step.editTicketDetails, Step.addLogNote]

/-- Does the list hay start with the list needle. -/
def listStartsWith : List Char → List Char → Bool
  | _, [] => true
  | [], _ :: _ => false
  | a :: as, b :: bs => a = b && listStartsWith as bs

/-- JavaScript hay.includes(needle) on exploded strings. -/
def listContainsSeq : List Char → List Char → Bool
  | [], needle => listStartsWith [] needle
  | h :: t, needle => listStartsWith (h :: t) needle || listContainsSeq t needle

/-- JSON.stringify of a title as interpolated into the xpath selector.
Escaping of special characters inside the title is not modelled; the selector
strings are only ever used as opaque keys of the page oracle. -/
def jsonStringify (s : String) : String := "\"" ++ s ++ "\""

/-- The candidate selectors of openTicketByTitle(), in source order. -/
def ticketCardSelectors (t : String) : List String :=
  [ ".o_kanban_record:has(:text(\"" ++ t ++ "\"))",
    ".kanban-card:has(:text(\"" ++ t ++ "\"))",
    ".task-card:has(:text(\"" ++ t ++ "\"))",
    ".card:has(:text(\"" ++ t ++ "\"))",
    "xpath=//div[contains(@class,\x27o_kanban_record\x27)][.//text()[contains(., "
      ++ jsonStringify t ++ ")]]",
    "text=" ++ t ]

/-- openTicketByTitle(searchTitle): walk the candidate selectors in order; for
each, walk the matched card texts; click (and succeed) at the first non-empty
text that contains the searched title case-insensitively.  The page oracle
maps a query string to the texts of the elements it matches. -/
def openTicketByTitle (page : String → List String) (searchTitle : String) : Bool :=
  (ticketCardSelectors searchTitle).any fun sel =>
    (page sel).any fun text =>
      !(text == "") &&
        listContainsSeq (text.toList.map Char.toLower) (searchTitle.toList.map Char.toLower)

/-- Oracle outcomes for one run(): whether each browser step succeeds, the
ticket id captured by submitTicket, and the page contents seen by
openTicketByTitle. -/
structure RunWorld where
  initOk : Bool := true
  initErr : String := "browser launch failed"
  loginOk : Bool := true
  navOk : Bool := true
  createOk : Bool := true
  fillOk : Bool := true
  submitOk : Bool := true
  openCreatedOk : Bool := true
  editOk : Bool := true
  noteOk : Bool := true
  capturedTicketId : Option String := none
  page : String → List String := fun _ => []

/-- if (this.ticketId) {success, ticketId} else {success, ticketId: null}. -/
def truthyTicketId : Option String → Option String
  | none => none
  | some s => if s == "" then none else some s

/-- The try block of run(): the executed named steps paired with either the
resolved value (.ok) or the thrown error message (.error).  Failures of
editTicketDetails and addLogNote in the default flow are logged and ignored
by the source, so they do not influence the outcome; both steps still run. -/
def runBody (env : Env) (w : RunWorld) : List Step × Except String RunResult :=
  if w.initOk = false then ([], .error w.initErr) else
  let td := ticketDetailsForRun env
  if w.loginOk = false then
    ([Step.login], .error "Login failed")
  else if w.navOk = false then
    ([Step.login, Step.navigateToProjects],
     .error "Failed to navigate to Projects and select Test Support")
  else if logNoteOnlyMode env then
    if openTicketByTitle w.page td.title = false then
      ([Step.login, Step.navigateToProjects, Step.openTicketByTitle],
       .error ("Ticket not found: " ++ td.title))
    else if w.noteOk = false then
      ([Step.login, Step.navigateToProjects, Step.openTicketByTitle, Step.addLogNote],
       .error "Failed to add log note")
    else
      ([Step.login, Step.navigateToProjects, Step.openTicketByTitle, Step.addLogNote],
       .ok { success := true, ticketId := none })
  else
    if w.createOk = false then
      ([Step.login, Step.navigateToProjects, Step.clickCreate],
       .error "Failed to click Create")
    else if w.fillOk = false then
      ([Step.login, Step.navigateToProjects, Step.clickCreate, Step.fillTicketForm],
       .error "Failed to fill ticket form")
    else if w.submitOk = false then
      ([Step.login, Step.navigateToProjects, Step.clickCreate, Step.fillTicketForm,
        Step.submitTicket],
       .error "Failed to submit ticket")
    else if w.openCreatedOk = false then
      ([Step.login, Step.navigateToProjects, Step.clickCreate, Step.fillTicketForm,
        Step.submitTicket, Step.clickOnCreatedTicket],
       .error "Failed to click on created ticket")
    else
      (defaultStepOrder, .ok { success := true, ticketId := truthyTicketId w.capturedTicketId })

/-- run(): the try block with its catch, which turns any thrown error into a
resolved {success: false, error: message} value instead of a rejection. -/
def run (env : Env) (w : RunWorld) : List Step × RunResult :=
  match runBody env w with
  | (t, .ok r) => (t, r)
  | (t, .error m) => (t, { success := false, error := some m })

/-- Oracle inputs for one POST /automate request: the uuid handed out, the
current time, whether the blocking section throws (and with what message)
before the automation result is sent, and the browser oracles of the run. -/
structure HandlerWorld where
  jobId : String := "job-1"
  now : Nat := 0
  throws : Option String := none
  runWorld : RunWorld := {}

/-- What one POST /automate request produces: the response, the value of
process.env after the handler, the job store after the handler, and the id of
the background job spawned (if any). -/
structure HandlerResult where
  resp : Response
  env : Env
  store : JobStore
  bgJob : Option String

/-- Whether originalEnv is in scope in the catch block of the automate
handler.  It is not: const originalEnv is declared inside the try block and
block-scoped to it, so in the sibling catch block the name is undeclared,
typeof originalEnv evaluates to the string "undefined", and the guarded
best-effort restore (if (typeof originalEnv !== "undefined") process.env =
originalEnv) is dead code. -/
def originalEnvVisibleInCatch : Bool := false

/-- POST /automate.  The blocking section after the environment update is
either the construction, run and response (no throw), or an exception with
message w.throws caught by the catch block.  automation.run() itself never
rejects (its own catch resolves it), so the background IIFE is modelled
separately by finishJob. -/
def postAutomate (env0 : Env) (body : Body) (store : JobStore) (w : HandlerWorld) :
    HandlerResult :=
  let env1 := ensureHeadless (updateEnvFromBody env0 body)
  if waitForResponse body = false then
    { resp := { status := 202, accepted := some true, message := some "Automation started",
                jobId := some w.jobId, statusUrl := some ("/status/" ++ w.jobId),
                timestamp := some w.now },
      env := env1,
      store := (w.jobId, newJob w.jobId w.now) :: store,
      bgJob := some w.jobId }
  else
    match w.throws with
    | some msg =>
        { resp := { status := 500, success := some false, error := some msg,
                    timestamp := some w.now },
          env := if originalEnvVisibleInCatch then env0 else env1,
          store := store,
          bgJob := none }
    | none =>
        let r := (run env1 w.runWorld).2
        { resp := { status := 200, success := some r.success, data := some r,
                    timestamp := some w.now },
          env := env0,
          store := store,
          bgJob := none }

theorem postAutomate_store (env : Env) (body : Body) (store : JobStore) (w : HandlerWorld) :
    (postAutomate env body store w).store =
      if waitForResponse body = false then (w.jobId, newJob w.jobId w.now) :: store
      else store := by
  unfold postAutomate
  by_cases hb : waitForResponse body = false
  · simp [hb]
  · simp [hb]
    cases w.throws <;> simp

/-- Claim C2: in background mode, POST /automate responds 202 at once with a
job id and a status URL, records a running job in the in-memory store, spawns
the background run, and the job can be polled at that id. -/
theorem automate_background_accepted (env : Env) (body : Body) (store : JobStore)
    (w : HandlerWorld) (hbg : waitForResponse body = false) :
    (postAutomate env body store w).resp.status = 202 ∧
    (postAutomate env body store w).resp.accepted = some true ∧
    (postAutomate env body store w).resp.jobId = some w.jobId ∧
    (postAutomate env body store w).resp.statusUrl = some ("/status/" ++ w.jobId) ∧
    storeGet (postAutomate env body store w).store w.jobId = some (newJob w.jobId w.now) ∧
    (newJob w.jobId w.now).status = "running" ∧
    (postAutomate env body store w).bgJob = some w.jobId ∧
    (statusHandler (postAutomate env body store w).store w.jobId).jobStatus = some "running" ∧
    (statusHandler (postAutomate env body store w).store w.jobId).status = 200 := by
  have hst : (postAutomate env body store w).store = (w.jobId, newJob w.jobId w.now) :: store := by
    rw [postAutomate_store, if_pos hbg]
  have hget : storeGet (postAutomate env body store w).store w.jobId
      = some (newJob w.jobId w.now) := by
    rw [hst]
    simp [storeGet]
  have hstatus : statusHandler (postAutomate env body store w).store w.jobId =
      { jobId := some w.jobId, jobStatus := some "running", jobResult := some none,
        createdAt := some w.now, completedAt := some none, duration := none } := by
    unfold statusHandler
    rw [hget]
    simp [newJob]
  exact ⟨by simp [postAutomate, hbg], by simp [postAutomate, hbg], by simp [postAutomate, hbg],
    by simp [postAutomate, hbg], hget, rfl, by simp [postAutomate, hbg],
    by rw [hstatus], by rw [hstatus]⟩

def cEnvNone : Env := fun _ => none

def c2Body : Body := [("waitForResponse", JsValue.str "false")]

/-- Witness for claim C2 at a concrete background request. -/
theorem automate_background_accepted_witness :
    (postAutomate cEnvNone c2Body [] {}).resp.status = 202 ∧
    (statusHandler (postAutomate cEnvNone c2Body [] {}).store "job-1").jobStatus
      = some "running" := by
  have h := automate_background_accepted cEnvNone c2Body [] {} (by decide)
  exact ⟨h.1, h.2.2.2.2.2.2.2.1⟩

/-- Claim C4: a failing automation run is caught and resolved as
{success: false, error: message} rather than rejected, and an exception in
the blocking automate handler is answered with HTTP 500, success false and
the error message. -/
theorem run_and_handler_error_surfacing (env : Env) (w : RunWorld) (body : Body)
    (store : JobStore) (hw : HandlerWorld) :
    (∀ m, (runBody env w).2 = Except.error m →
      (run env w).2 = { success := false, ticketId := none, error := some m }) ∧
    (∀ m, waitForResponse body = true → hw.throws = some m →
      (postAutomate env body store hw).resp.status = 500 ∧
      (postAutomate env body store hw).resp.success = some false ∧
      (postAutomate env body store hw).resp.error = some m) := by
  constructor
  · intro m hm
    unfold run
    rcases hr : runBody env w with ⟨t, out⟩
    rw [hr] at hm
    cases out with
    | ok r => simp at hm
    | error m' =>
        simp at hm
        subst hm
        rfl
  · intro m hwait hthrow
    have hb : ¬ waitForResponse body = false := by simp [hwait]
    refine ⟨?_, ?_, ?_⟩ <;> simp [postAutomate, hb, hthrow]

/-- Witness for claim C4: a failed login resolves as a failure value, and a
throwing blocking handler answers 500. -/
theorem run_and_handler_error_surfacing_witness :
    (run cEnvNone { loginOk := false }).2 =
      { success := false, ticketId := none, error := some "Login failed" } ∧
    (postAutomate cEnvNone [] [] { throws := some "boom" }).resp.status = 500 := by
  have h := run_and_handler_error_surfacing cEnvNone { loginOk := false } [] []
    { throws := some "boom" }
  exact ⟨h.1 "Login failed" rfl, (h.2 "boom" rfl rfl).1⟩

/-- Claim C8: on the blocking path process.env is restored to the
pre-request snapshot only when run and response complete without a throw;
when the handler throws, the catch block does not restore (originalEnv is out
of scope there), so the body mutations persist; in background mode they are
never restored at all. -/
theorem env_restore_paths (env : Env) (body : Body) (store : JobStore) (w : HandlerWorld) :
    (waitForResponse body = true → w.throws = none →
      (postAutomate env body store w).env = env) ∧
    (∀ m, waitForResponse body = true → w.throws = some m →
      (postAutomate env body store w).env = ensureHeadless (updateEnvFromBody env body)) ∧
    (waitForResponse body = false →
      (postAutomate env body store w).env = ensureHeadless (updateEnvFromBody env body)) := by
  refine ⟨?_, ?_, ?_⟩
  · intro hb ht
    have hb' : ¬ waitForResponse body = false := by simp [hb]
    simp [postAutomate, hb', ht]
  · intro m hb ht
    have hb' : ¬ waitForResponse body = false := by simp [hb]
    simp [postAutomate, hb', ht, originalEnvVisibleInCatch]
  · intro hb
    simp [postAutomate, hb]

/-- Witness for claim C8: with a throwing blocking handler the environment
stays mutated, with a clean one it is restored. -/
theorem env_restore_paths_witness :
    (postAutomate cEnvNone [] [] { throws := some "boom" }).env
      = ensureHeadless (updateEnvFromBody cEnvNone []) ∧
    (postAutomate cEnvNone [] [] {}).env = cEnvNone := by
  exact ⟨(env_restore_paths cEnvNone [] [] { throws := some "boom" }).2.1 "boom" rfl rfl,
         (env_restore_paths cEnvNone [] [] {}).1 rfl rfl⟩

/-- Job stores reachable from the empty store through the two mutating
operations: a POST /automate request and the completion of a background run.
GET /status/:jobId never writes the store. -/
inductive ReachableStore : JobStore → Prop where
  | empty : ReachableStore []
  | automate (env : Env) (body : Body) (w : HandlerWorld) {s : JobStore} :
      ReachableStore s → ReachableStore (postAutomate env body s w).store
  | finish (key : String) (outcome : Except String RunResult) (t : Nat) {s : JobStore} :
      ReachableStore s → ReachableStore (finishJob s key outcome t)

/-- The invariant of one stored job record: its id is its key, its status is
one of the three states, and completedAt and result are null exactly while it
is running. -/
def JobInv (key : String) (j : Job) : Prop :=
  j.id = key ∧
  (j.status = "running" ∨ j.status = "completed" ∨ j.status = "failed") ∧
  ((j.status = "running" ∧ j.completedAt = none ∧ j.result = none) ∨
   (j.status ≠ "running" ∧ j.completedAt ≠ none ∧ j.result ≠ none))

/-- Claim C6: every job record in any reachable state of the in-memory store
satisfies the record invariant; the /automate and /status operations
preserve it. -/
theorem job_store_invariant (s : JobStore) (h : ReachableStore s) :
    ∀ key j, (key, j) ∈ s → JobInv key j := by
  induction h with
  | empty =>
      intro key j hj
      exact absurd hj (List.not_mem_nil _)
  | automate env body w hs ih =>
      intro key j hj
      rw [postAutomate_store] at hj
      by_cases hb : waitForResponse body = false
      · rw [if_pos hb] at hj
        rcases List.mem_cons.mp hj with heq | hmem
        · have hk : key = w.jobId := congrArg Prod.fst heq
          have hjj : j = newJob w.jobId w.now := congrArg Prod.snd heq
          rw [hjj, hk]
          exact ⟨rfl, Or.inl rfl, Or.inl ⟨rfl, rfl, rfl⟩⟩
        · exact ih key j hmem
      · rw [if_neg hb] at hj
        exact ih key j hj
  | finish key0 outcome t hs ih =>
      intro key j hj
      unfold finishJob at hj
      rcases List.mem_map.mp hj with ⟨⟨pk, pj⟩, hp, hpe⟩
      have hinv := ih pk pj hp
      dsimp only at hpe
      split at hpe
      · have hk : pk = key := congrArg Prod.fst hpe
        have hj2 : completeJob pj outcome t = j := congrArg Prod.snd hpe
        rw [← hj2, ← hk]
        cases outcome with
        | ok r =>
            exact ⟨hinv.1, Or.inr (Or.inl rfl),
              Or.inr ⟨by simp [completeJob], by simp [completeJob], by simp [completeJob]⟩⟩
        | error m =>
            exact ⟨hinv.1, Or.inr (Or.inr rfl),
              Or.inr ⟨by simp [completeJob], by simp [completeJob], by simp [completeJob]⟩⟩
      · have hk : pk = key := congrArg Prod.fst hpe
        have hj2 : pj = j := congrArg Prod.snd hpe
        rw [← hj2, ← hk]
        exact hinv

/-- Witness for claim C6: the job created by a concrete background request
satisfies the invariant. -/
theorem job_store_invariant_witness : JobInv "job-1" (newJob "job-1" 0) := by
  have hreach : ReachableStore (postAutomate cEnvNone c2Body [] {}).store :=
    ReachableStore.automate cEnvNone c2Body {} ReachableStore.empty
  have hmem : ("job-1", newJob "job-1" 0) ∈ (postAutomate cEnvNone c2Body [] {}).store := by
    rw [postAutomate_store, if_pos (by decide)]
    exact List.mem_cons_self _ _
  exact job_store_invariant _ hreach "job-1" (newJob "job-1" 0) hmem

/-- Claim C5: the default (ticket-creation) flow runs the named UI steps in
exactly the order login, navigate, create, fill form, submit, open created
ticket, edit details, add log note, each at most once, and aborts with a
failure result as soon as login, navigation, create, form fill, submit or
opening the created ticket fails (edit and log-note failures are tolerated). -/
theorem run_default_flow_order (env : Env) (w : RunWorld)
    (hmode : logNoteOnlyMode env = false) (hinit : w.initOk = true) :
    ((run env w).1 = defaultStepOrder.take ((run env w).1).length) ∧
    ((run env w).1.Nodup) ∧
    (w.loginOk = false →
      run env w = ([Step.login], { success := false, error := some "Login failed" })) ∧
    (w.loginOk = true → w.navOk = false →
      run env w = ([Step.login, Step.navigateToProjects],
        { success := false,
          error := some "Failed to navigate to Projects and select Test Support" })) ∧
    (w.loginOk = true → w.navOk = true → w.createOk = false →
      run env w = ([Step.login, Step.navigateToProjects, Step.clickCreate],
        { success := false, error := some "Failed to click Create" })) ∧
    (w.loginOk = true → w.navOk = true → w.createOk = true → w.fillOk = false →
      run env w = ([Step.login, Step.navigateToProjects, Step.clickCreate,
        Step.fillTicketForm],
        { success := false, error := some "Failed to fill ticket form" })) ∧
    (w.loginOk = true → w.navOk = true → w.createOk = true → w.fillOk = true →
      w.submitOk = false →
      run env w = ([Step.login, Step.navigateToProjects, Step.clickCreate,
        Step.fillTicketForm, Step.submitTicket],
        { success := false, error := some "Failed to submit ticket" })) ∧
    (w.loginOk = true → w.navOk = true → w.createOk = true → w.fillOk = true →
      w.submitOk = true → w.openCreatedOk = false →
      run env w = ([Step.login, Step.navigateToProjects, Step.clickCreate,
        Step.fillTicketForm, Step.submitTicket, Step.clickOnCreatedTicket],
        { success := false, error := some "Failed to click on created ticket" })) ∧
    (w.loginOk = true → w.navOk = true → w.createOk = true → w.fillOk = true →
      w.submitOk = true → w.openCreatedOk = true →
      run env w = (defaultStepOrder,
        { success := true, ticketId := truthyTicketId w.capturedTicketId })) := by
  obtain ⟨initOk, initErr, loginOk, navOk, createOk, fillOk, submitOk, openCreatedOk,
    editOk, noteOk, tid, page⟩ := w
  simp only at hinit
  subst hinit
  refine ⟨?_, ?_, ?_, ?_, ?_, ?_, ?_, ?_, ?_⟩
  · cases loginOk <;> cases navOk <;> cases createOk <;> cases fillOk <;>
      cases submitOk <;> cases openCreatedOk <;>
      simp [run, runBody, hmode, defaultStepOrder]
  · cases loginOk <;> cases navOk <;> cases createOk <;> cases fillOk <;>
      cases submitOk <;> cases openCreatedOk <;>
      simp [run, runBody, hmode, defaultStepOrder]
  · intro h1
    simp only at h1
    subst h1
    simp [run, runBody, hmode]
  · intro h1 h2
    simp only at h1 h2
    subst h1; subst h2
    simp [run, runBody, hmode]
  · intro h1 h2 h3
    simp only at h1 h2 h3
    subst h1; subst h2; subst h3
    simp [run, runBody, hmode]
  · intro h1 h2 h3 h4
    simp only at h1 h2 h3 h4
    subst h1; subst h2; subst h3; subst h4
    simp [run, runBody, hmode]
  · intro h1 h2 h3 h4 h5
    simp only at h1 h2 h3 h4 h5
    subst h1; subst h2; subst h3; subst h4; subst h5
    simp [run, runBody, hmode]
  · intro h1 h2 h3 h4 h5 h6
    simp only at h1 h2 h3 h4 h5 h6
    subst h1; subst h2; subst h3; subst h4; subst h5; subst h6
    simp [run, runBody, hmode]
  · intro h1 h2 h3 h4 h5 h6
    simp only at h1 h2 h3 h4 h5 h6
    subst h1; subst h2; subst h3; subst h4; subst h5; subst h6
    simp [run, runBody, hmode, defaultStepOrder]

/-- Witness for claim C5: a failed navigation aborts the flow right after the
first two steps with the corresponding failure result. -/
theorem run_default_flow_order_witness :
    run cEnvNone { navOk := false } =
      ([Step.login, Step.navigateToProjects],
       { success := false,
         error := some "Failed to navigate to Projects and select Test Support" }) := by
  exact (run_default_flow_order cEnvNone { navOk := false } rfl rfl).2.2.2.1 rfl rfl

/-- CONFIG.selectors.emailInput: the combined comma selector tried last. -/
def CONFIG_emailInput : String :=
  "#loginRegisterPopup input#login, #loginRegisterPopup input[name=\"login\"], input#login, input[name=\"login\"], input[type=\"email\"], input[name=\"email\"], input[placeholder*=\"email\" i]"

/-- The email-input fallback chain of login(), in source order. -/
def emailSelectors : List String :=
  ["input#login", "input[name=\"login\"]", "input[type=\"email\"]", "input[name=\"email\"]",
   CONFIG_emailInput]

/-- DOM oracles for one fallback loop: whether the first element matched by a
selector is visible, and whether clearAndType on that selector succeeds
(clearAndType rethrows its errors, and the per-iteration catch of the loop
turns such a throw into a continue). -/
structure DomWorld where
  visible : String → Bool
  fillOk : String → Bool

/-- One selector fallback loop of login(): walk the selectors in order; for
each, when its element is visible, attempt the fill; a successful fill breaks
the loop, any other outcome (not visible, or visible but the fill throws)
continues with the next selector.  Returns the selectors tried (in order) and
whether the field was filled. -/
def fillFirstVisible (w : DomWorld) : List String → List String × Bool
  | [] => ([], false)
  | s :: rest =>
    if w.visible s then
      if w.fillOk s then ([s], true)
      else
        let r := fillFirstVisible w rest
        (s :: r.1, r.2)
    else
      let r := fillFirstVisible w rest
      (s :: r.1, r.2)

def c7World : DomWorld :=
  { visible := fun _ => true, fillOk := fun s => !(s == "input#login") }

/-- Counterexample to claim C7 as stated: in a world where every selector is
visible but clearAndType throws on the first one, the loop does not stop at
the first pattern that matches a visible element; the second pattern is tried
as well (and succeeds). -/
theorem selector_chain_cex :
    c7World.visible "input#login" = true ∧
    (fillFirstVisible c7World emailSelectors).1 =
      ["input#login", "input[name=\"login\"]"] ∧
    (fillFirstVisible c7World emailSelectors).2 = true := by
  exact ⟨rfl, rfl, rfl⟩

theorem fillFirstVisible_take (w : DomWorld) (sels : List String) :
    (fillFirstVisible w sels).1 = sels.take ((fillFirstVisible w sels).1).length := by
  induction sels with
  | nil => rfl
  | cons s rest ih =>
    unfold fillFirstVisible
    by_cases hv : w.visible s
    · by_cases hf : w.fillOk s
      · simp [hv, hf]
      · simp [hv, hf]
        exact ih
    · simp [hv]
      exact ih

theorem fillFirstVisible_found (w : DomWorld) (sels : List String) :
    (fillFirstVisible w sels).2 = true ↔
      ∃ s ∈ sels, w.visible s = true ∧ w.fillOk s = true := by
  induction sels with
  | nil => simp [fillFirstVisible]
  | cons s rest ih =>
    unfold fillFirstVisible
    by_cases hv : w.visible s
    · by_cases hf : w.fillOk s
      · simp [hv, hf]
      · simp [hv, hf, ih]
    · simp [hv, ih]

theorem fillFirstVisible_first (w : DomWorld) (l₁ : List String) (s : String)
    (l₂ : List String) (h : ∀ x ∈ l₁, ¬(w.visible x = true ∧ w.fillOk x = true))
    (hv : w.visible s = true) (hf : w.fillOk s = true) :
    fillFirstVisible w (l₁ ++ s :: l₂) = (l₁ ++ [s], true) := by
  induction l₁ with
  | nil => simp [fillFirstVisible, hv, hf]
  | cons x rest ih =>
    have hx := h x (List.mem_cons_self _ _)
    have ihr := ih fun y hy => h y (List.mem_cons_of_mem _ hy)
    rw [List.cons_append]
    unfold fillFirstVisible
    by_cases hxv : w.visible x
    · have hxf : ¬ w.fillOk x = true := fun hf2 => hx ⟨hxv, hf2⟩
      simp [hxv, hxf, ihr]
    · simp [hxv, ihr]

theorem fillFirstVisible_none (w : DomWorld) (sels : List String)
    (h : ∀ s ∈ sels, ¬(w.visible s = true ∧ w.fillOk s = true)) :
    fillFirstVisible w sels = (sels, false) := by
  induction sels with
  | nil => rfl
  | cons s rest ih =>
    have hs := h s (List.mem_cons_self _ _)
    have ihr := ih fun y hy => h y (List.mem_cons_of_mem _ hy)
    unfold fillFirstVisible
    by_cases hv : w.visible s
    · have hf : ¬ w.fillOk s = true := fun hf2 => hs ⟨hv, hf2⟩
      simp [hv, hf, ihr]
    · simp [hv, ihr]

/-- Claim C7 (amended): a selector fallback loop tries its patterns strictly
in list order and stops at the first pattern that matches a visible element
and whose fill succeeds; patterns after that one are never tried; a pattern
whose element is visible but whose fill throws is skipped and the chain
continues; the enclosing step fails only if no pattern matches a visible
element with a successful fill (in which case every pattern was tried). -/
theorem selector_chain_first_success (w : DomWorld) (sels : List String) :
    ((fillFirstVisible w sels).1 = sels.take ((fillFirstVisible w sels).1).length) ∧
    ((fillFirstVisible w sels).2 = true ↔
      ∃ s ∈ sels, w.visible s = true ∧ w.fillOk s = true) ∧
    (∀ l₁ s l₂, sels = l₁ ++ s :: l₂ →
      (∀ x ∈ l₁, ¬(w.visible x = true ∧ w.fillOk x = true)) →
      w.visible s = true → w.fillOk s = true →
      fillFirstVisible w sels = (l₁ ++ [s], true)) ∧
    ((∀ s ∈ sels, ¬(w.visible s = true ∧ w.fillOk s = true)) →
      fillFirstVisible w sels = (sels, false)) := by
  refine ⟨fillFirstVisible_take w sels, fillFirstVisible_found w sels, ?_,
    fillFirstVisible_none w sels⟩
  intro l₁ s l₂ heq h hv hf
  rw [heq]
  exact fillFirstVisible_first w l₁ s l₂ h hv hf

def c7WitWorld : DomWorld :=
  { visible := fun s => s == "input[type=\"email\"]", fillOk := fun _ => true }

/-- Witness for amended claim C7: with only the third pattern visible, the
loop tries exactly the first three patterns and fills at the third. -/
theorem selector_chain_first_success_witness :
    fillFirstVisible c7WitWorld emailSelectors =
      (["input#login", "input[name=\"login\"]", "input[type=\"email\"]"], true) := by
  exact (selector_chain_first_success c7WitWorld emailSelectors).2.2.1
    ["input#login", "input[name=\"login\"]"] "input[type=\"email\"]"
    ["input[name=\"email\"]", CONFIG_emailInput] rfl (by decide) (by decide) rfl

theorem logNoteOnlyMode_ticket_title (env : Env) (hm : logNoteOnlyMode env = true) :
    truthy (env "TICKET_TITLE") = true := by
  unfold logNoteOnlyMode jsAndStr at hm
  by_cases h1 : truthy (env "TICKET_TITLE") = true
  · exact h1
  · rw [if_neg h1] at hm
    exact absurd hm h1

/-- Claim C10: run() enters log-note-only mode exactly when TICKET_TITLE is
set (truthy) and at least one of LOG_NOTE or EMAIL_SUBJECT is set; the mode
skips ticket creation and editing, opens an existing ticket whose card text
contains the configured title case-insensitively, posts the log note, and a
successful run resolves {success: true, ticketId: null}; it fails when no
ticket matching the title is found. -/
theorem run_log_note_only_mode (env : Env) (w : RunWorld) :
    (logNoteOnlyMode env = true ↔
      (truthy (env "TICKET_TITLE") = true ∧
        (truthy (env "LOG_NOTE") = true ∨ truthy (env "EMAIL_SUBJECT") = true))) ∧
    (logNoteOnlyMode env = true →
      Step.clickCreate ∉ (run env w).1 ∧ Step.fillTicketForm ∉ (run env w).1 ∧
      Step.submitTicket ∉ (run env w).1 ∧ Step.editTicketDetails ∉ (run env w).1) ∧
    (logNoteOnlyMode env = true →
      (ticketDetailsForRun env).title = (env "TICKET_TITLE").getD "") ∧
    (logNoteOnlyMode env = true → w.initOk = true → w.loginOk = true → w.navOk = true →
      openTicketByTitle w.page (ticketDetailsForRun env).title = true → w.noteOk = true →
      run env w = ([Step.login, Step.navigateToProjects, Step.openTicketByTitle,
        Step.addLogNote], { success := true, ticketId := none })) ∧
    (logNoteOnlyMode env = true → w.initOk = true → w.loginOk = true → w.navOk = true →
      openTicketByTitle w.page (ticketDetailsForRun env).title = false →
      run env w = ([Step.login, Step.navigateToProjects, Step.openTicketByTitle],
        { success := false,
          error := some ("Ticket not found: " ++ (ticketDetailsForRun env).title) })) ∧
    (∀ page t, openTicketByTitle page t = true ↔
      ∃ sel ∈ ticketCardSelectors t, ∃ tx ∈ page sel,
        ¬tx = "" ∧
          listContainsSeq (tx.toList.map Char.toLower) (t.toList.map Char.toLower) = true) := by
  obtain ⟨initOk, initErr, loginOk, navOk, createOk, fillOk, submitOk, openCreatedOk,
    editOk, noteOk, tid, page⟩ := w
  refine ⟨?_, ?_, ?_, ?_, ?_, ?_⟩
  · unfold logNoteOnlyMode jsAndStr jsOrStr
    by_cases h1 : truthy (env "TICKET_TITLE") = true <;>
      by_cases h2 : truthy (env "LOG_NOTE") = true <;>
      by_cases h3 : truthy (env "EMAIL_SUBJECT") = true <;>
      simp [h1, h2, h3]
  · intro hm
    cases initOk <;> cases loginOk <;> cases navOk <;>
      cases hop : openTicketByTitle page (ticketDetailsForRun env).title <;>
      cases noteOk <;>
      simp [run, runBody, hm, hop]
  · intro hm
    have h1 := logNoteOnlyMode_ticket_title env hm
    unfold ticketDetailsForRun
    simp [hm, jsOrStr, h1]
  · intro hm hi hl hn hop hnote
    simp only at hi hl hn hnote
    subst hi; subst hl; subst hn; subst hnote
    simp [run, runBody, hm, hop]
  · intro hm hi hl hn hop
    simp only at hi hl hn
    subst hi; subst hl; subst hn
    simp [run, runBody, hm, hop]
  · intro page2 t
    unfold openTicketByTitle
    simp [List.any_eq_true, Bool.and_eq_true]

def c10Env : Env := fun k =>
  if k = "TICKET_TITLE" then some "Existing Ticket"
  else if k = "LOG_NOTE" then some "note text" else none

def c10World : RunWorld := { page := fun _ => ["Existing Ticket"] }

/-- Witness for claim C10: with TICKET_TITLE and LOG_NOTE set and a matching
card on the page, the run posts the note and resolves with a null ticket id. -/
theorem run_log_note_only_mode_witness :
    run c10Env c10World =
      ([Step.login, Step.navigateToProjects, Step.openTicketByTitle, Step.addLogNote],
       { success := true, ticketId := none }) := by
  exact (run_log_note_only_mode c10Env c10World).2.2.2.1 (by decide) rfl rfl rfl
    (by decide) rfl
